import Mathlib

/-!
# ProfilePage.jsx: a shallow embedding of the profile editor view

The component of `src/app/frontend/pages/ProfilePage.jsx` is a set of event
handlers over React state, the react-hook-form value store, `localStorage`
and the network.  Each handler is embedded as a pure function on an explicit
`State`; the outcome of the single HTTP call a handler awaits is a parameter
(`Response`), and every request and navigation the handler performs is
appended to `State.effects`.

JavaScript strings are Lean strings (sequences of code points, so a string with
an unpaired surrogate has no counterpart); `jsLength` is the `.length` of the
string (UTF-16 code units).  The builtins `Array.prototype.join`,
`String.prototype.split` (one-character separator, no limit) and
`String.prototype.trim` follow ECMAScript.
-/

namespace ProfilePage

/-! ## JavaScript values and strings -/

/-- A dynamically typed slot: what a form value, a preview URL or a property of
a request body can hold in this component. -/
inductive JsVal where
  | undefined
  | null
  | str (s : String)
  | arr (xs : List String)
  deriving DecidableEq, Repr

/-- A typed property of a JSON record that may be absent or null. -/
inductive Nullable (α : Type) where
  | undefined
  | null
  | val (a : α)
  deriving DecidableEq, Repr

/-- Reading a string property into a dynamically typed slot. -/
def ofStr : Nullable String → JsVal
  | .undefined => .undefined
  | .null => .null
  | .val s => .str s

/-- Reading a list property into a dynamically typed slot. -/
def ofArr : Nullable (List String) → JsVal
  | .undefined => .undefined
  | .null => .null
  | .val xs => .arr xs

/-- Number of UTF-16 code units of one code point. -/
def utf16Units (c : Char) : Nat := if c.toNat < 0x10000 then 1 else 2

/-- The `.length` of a JavaScript string: its number of UTF-16 code units. -/
def jsLength (s : String) : Nat := (s.data.map utf16Units).sum

/-- The `Array.prototype.join(sep)` builtin on an array of strings. -/
def join (sep : String) : List String → String
  | [] => ""
  | [x] => x
  | x :: y :: rest => x ++ sep ++ join sep (y :: rest)

/-- The optional call `xs?.join(sep)`: undefined when `xs` is null or undefined. -/
def joinOpt (sep : String) : Nullable (List String) → JsVal
  | .val xs => .str (join sep xs)
  | _ => .undefined

/-- Splitting at every occurrence of `sep`: the first piece and the pieces after it. -/
def splitPieces (sep : Char) : List Char → List Char × List (List Char)
  | [] => ([], [])
  | c :: cs =>
    let r := splitPieces sep cs
    if c = sep then ([], r.1 :: r.2) else (c :: r.1, r.2)

/-- The `String.prototype.split(sep)` builtin for a one-character separator and no limit. -/
def split (s : String) (sep : Char) : List String :=
  let r := splitPieces sep s.data
  String.mk r.1 :: r.2.map String.mk

/-- The code points `String.prototype.trim` strips: ECMAScript WhiteSpace and
LineTerminator. -/
def isWhiteSpace (c : Char) : Bool :=
  c.toNat ∈ [0x9, 0xA, 0xB, 0xC, 0xD, 0x20, 0xA0, 0x1680, 0x2000, 0x2001, 0x2002,
    0x2003, 0x2004, 0x2005, 0x2006, 0x2007, 0x2008, 0x2009, 0x200A, 0x2028, 0x2029,
    0x202F, 0x205F, 0x3000, 0xFEFF]

/-- Dropping leading and trailing white space from a list of code points. -/
def trimChars (l : List Char) : List Char :=
  ((l.dropWhile isWhiteSpace).reverse.dropWhile isWhiteSpace).reverse

/-- The `String.prototype.trim` builtin. -/
def trim (s : String) : String := String.mk (trimChars s.data)

/-- Whether a string begins with a white space code point. -/
def startsWithWhiteSpace (s : String) : Bool :=
  match s.data.head? with
  | some c => isWhiteSpace c
  | none => false

/-- Whether a string ends with a white space code point. -/
def endsWithWhiteSpace (s : String) : Bool :=
  match s.data.getLast? with
  | some c => isWhiteSpace c
  | none => false

/-! ## The validation schema (lines 43-54) -/

/-- The tests a yup string schema of this file chains. -/
inductive YupTest where
  | required (message : String)
  | min (limit : Nat) (message : String)
  | max (limit : Nat) (message : String)
  deriving DecidableEq, Repr

/-- The message a failing test reports. -/
def YupTest.message : YupTest → String
  | .required m => m
  | .min _ m => m
  | .max _ m => m

/-- Whether a value passes a test.  `required` fails on undefined, null and the
empty string; `min` and `max` compare `.length` and skip absent values. -/
def YupTest.passes : YupTest → JsVal → Bool
  | .required _, .str v => decide (0 < jsLength v)
  | .required _, _ => false
  | .min n _, .str v => decide (n ≤ jsLength v)
  | .min _ _, _ => true
  | .max n _, .str v => decide (jsLength v ≤ n)
  | .max _ _, _ => true

/-- One validation error of a field: a failed test with its message, or the
type error of a value that is not a string. -/
inductive ValidationError where
  | test (message : String)
  | typeError
  deriving DecidableEq, Repr

/-- Validating one value against a `yup.string()` schema with the given tests,
all errors collected (the resolver runs with `abortEarly: false`). -/
def validateString (tests : List YupTest) : JsVal → List ValidationError
  | .arr _ => [.typeError]
  | v => (tests.filter (fun t => !t.passes v)).map (fun t => .test t.message)

/-- The object schema `schema` of the file: field name and the tests of its string schema. -/
def schema : List (String × List YupTest) :=
  [("aboutMe", [.required "About me is required",
                .min 10 "About me must be at least 10 characters",
                .max 500 "About me cannot exceed 500 characters"]),
   ("interests", [.required "Interests are required"]),
   ("favouriteArtist", [.required "Favourite artist is required"]),
   ("gender", [.required "Gender is required"])]

/-! ## State -/

/-- A plain object with string keys, as an association list. -/
abbrev Obj (α : Type) := List (String × α)

/-- Reading `o[k]`. -/
def Obj.get? {α : Type} (o : Obj α) (k : String) : Option α := o.lookup k

/-- The object `{ ...o, [k]: v }`. -/
def Obj.assign {α : Type} (o : Obj α) (k : String) (v : α) : Obj α :=
  (k, v) :: o.filter (fun p => p.1 != k)

/-- The values held by the react-hook-form store. -/
abbrev FormValues := Obj JsVal

/-- The `watch(name)` of react-hook-form: the current value of a field. -/
def watch (f : FormValues) (name : String) : JsVal :=
  match f.get? name with
  | some v => v
  | none => .undefined

/-- The `setValue(name, v)` of react-hook-form. -/
def setValue (f : FormValues) (name : String) (v : JsVal) : FormValues := f.assign name v

/-- The errors of every schema field that has at least one, in schema order. -/
def validate (sch : List (String × List YupTest)) (f : FormValues) :
    List (String × List ValidationError) :=
  (sch.map (fun p => (p.1, validateString p.2 (watch f p.1)))).filter (fun p => p.2 != [])

/-- The errors the schema reports for one field of the form. -/
def fieldErrors (sch : List (String × List YupTest)) (f : FormValues) (name : String) :
    List ValidationError :=
  match (validate sch f).lookup name with
  | some es => es
  | none => []

/-- The user profile record of the backend, with the properties this file reads. -/
structure Profile where
  username : Nullable String
  about_me : Nullable String
  interests : Nullable (List String)
  favourite_artist : Nullable (List String)
  gender : Nullable String
  profile_picture_url : Nullable String
  deriving DecidableEq, Repr

/-- The dynamic property read `record[key]`: the value of an own property of the
record, undefined for any other key (members inherited from `Object.prototype` are
not modelled). -/
def Profile.prop (r : Profile) (key : String) : JsVal :=
  if key = "username" then ofStr r.username
  else if key = "about_me" then ofStr r.about_me
  else if key = "interests" then ofArr r.interests
  else if key = "favourite_artist" then ofArr r.favourite_artist
  else if key = "gender" then ofStr r.gender
  else if key = "profile_picture_url" then ofStr r.profile_picture_url
  else .undefined

/-- The notification slot `snackbar`. -/
structure Snackbar where
  opened : Bool
  message : String
  severity : String
  deriving DecidableEq, Repr

/-- A file picked in the file input. -/
structure File where
  name : String
  mime : String
  size : Nat
  deriving DecidableEq, Repr

/-- What a handler does to the outside: HTTP requests and navigation. -/
inductive Effect where
  | get (url : String) (authorization : String)
  | post (url : String) (file : File) (authorization : String)
  | patch (url : String) (body : Obj JsVal) (authorization : String)
  | navigate (path : String)
  deriving DecidableEq, Repr

/-- The failure of an axios call: `error.response?.status` and
`error.response?.data?.error`. -/
structure AxiosError where
  status : Option Nat
  error : Option String
  deriving DecidableEq, Repr

/-- The outcome of an awaited axios call. -/
inductive Response (α : Type) where
  | ok (data : α)
  | rejected (e : AxiosError)
  deriving DecidableEq, Repr

/-- What a `try` block of this file can throw. -/
inductive JsError where
  | referenceError (name : String)
  | typeError
  | axios (e : AxiosError)
  deriving DecidableEq, Repr

/-- The names bound where the component body runs: the imports of lines 1-41, `schema`,
`ProfilePage`, the constants the component declares (lines 57-68 and its handlers) and
the browser globals the file uses.  Neither `editState` nor `setEditState` is among
them. -/
def declared : List String :=
  ["React", "useState", "useEffect", "axios", "useForm", "yupResolver", "yup", "motion",
   "TextField", "Button", "Container", "Box", "Typography", "MenuItem", "Snackbar", "Alert",
   "Avatar", "Paper", "IconButton", "Dialog", "DialogTitle", "DialogContent", "DialogActions",
   "Grid", "CircularProgress", "AddAPhotoIcon", "EditIcon", "SettingsIcon", "SecurityIcon",
   "CloseIcon", "useNavigate", "MenuIcon", "Drawer", "List", "ListItem", "ListItemIcon",
   "ListItemText", "HomeIcon", "ChevronLeftIcon", "Divider", "ArrowBackIcon",
   "schema", "ProfilePage", "navigate", "openModal", "setOpenModal", "editField",
   "setEditField", "snackbar", "setSnackbar", "profilePicture", "setProfilePicture",
   "previewUrl", "setPreviewUrl", "loading", "setLoading", "userData", "setUserData",
   "register", "handleSubmit", "errors", "setValue", "watch", "drawerOpen", "setDrawerOpen",
   "handleEditClick", "handleCloseSnackbar", "handleProfilePictureChange",
   "handleFieldUpdate", "renderField", "onSubmit",
   "localStorage", "console", "URL", "FormData", "Error", "document"]

/-- Evaluating an identifier in module code: a name that no declaration binds throws a
ReferenceError; `bound` is what a bound name evaluates to. -/
def identifier {α : Type} (name : String) (bound : α) : Except JsError α :=
  if name ∈ declared then .ok bound else .error (.referenceError name)

/-- The state the component works on: its `useState` slots, the form store,
the `token` entry of `localStorage` and the effects performed so far. -/
structure State where
  openModal : Bool
  editField : String
  snackbar : Snackbar
  profilePicture : Option File
  previewUrl : JsVal
  loading : Bool
  userData : Option Profile
  drawerOpen : Bool
  form : FormValues
  errors : List (String × List ValidationError)
  token : Option String
  effects : List Effect
  deriving DecidableEq, Repr

/-- The state of a freshly mounted component (the `useState` initial values). -/
def State.initial (token : Option String) : State :=
  { openModal := false, editField := "", snackbar := ⟨false, "", "success"⟩,
    profilePicture := none, previewUrl := .null, loading := false, userData := none,
    drawerOpen := false, form := [], errors := [], token := token,
    effects := [] }

/-- JavaScript falsiness of what `localStorage.getItem` returns: null or the empty string. -/
def falsy : Option String → Bool
  | none => true
  | some t => t == ""

/-- The header value of the template literal with the token spliced in. -/
def bearer : Option String → String
  | none => "Bearer null"
  | some t => "Bearer " ++ t

/-- The expression `m || fallback` on an optional string. -/
def orElse (m : Option String) (fallback : String) : String :=
  match m with
  | some s => if s = "" then fallback else s
  | none => fallback

/-- Performing one effect. -/
def State.perform (s : State) (e : Effect) : State := { s with effects := s.effects ++ [e] }

/-! ## The handlers -/

/-- The `handleEditClick` handler (lines 70-73). -/
def handleEditClick (s : State) (field : String) : State :=
  { s with editField := field, openModal := true }

/-- The `fetchUserData` function of the mount effect (lines 88-115); `resp` is the outcome
of the GET. -/
def fetchUserData (s : State) (resp : Response Profile) : State :=
  let s := s.perform (.get "http://localhost:5001/profile" (bearer s.token))
  match resp with
  | .ok data =>
    let s := { s with userData := some data }
    let s := { s with previewUrl := ofStr data.profile_picture_url }
    let s := { s with form := setValue s.form "aboutMe" (ofStr data.about_me) }
    let s := { s with form := setValue s.form "interests" (joinOpt ", " data.interests) }
    let s := { s with form := setValue s.form "favouriteArtist" (joinOpt ", " data.favourite_artist) }
    { s with form := setValue s.form "gender" (ofStr data.gender) }
  | .rejected error =>
    let s := if error.status = some 401 then
        ({ s with token := none } : State).perform (.navigate "/login")
      else s
    { s with snackbar := ⟨true, "Failed to load profile data", "error"⟩ }

/-- The mount effect `useEffect` (lines 75-118). -/
def useEffect (s : State) (resp : Response Profile) : State :=
  if falsy s.token then
    let s := { s with snackbar := ⟨true, "Please log in to view your profile", "warning"⟩ }
    s.perform (.navigate "/login")
  else
    fetchUserData s resp

/-- The `handleCloseSnackbar` handler (lines 120-122). -/
def handleCloseSnackbar (s : State) : State :=
  { s with snackbar := { s.snackbar with opened := false } }

/-- The read `userData?.profile_picture_url` (line 184). -/
def cachedPictureUrl (userData : Option Profile) : JsVal :=
  match userData with
  | some r => ofStr r.profile_picture_url
  | none => .undefined

/-- The `catch` block of `handleProfilePictureChange` (lines 162-184); `error` is the
axios error, or `none` for the `Error` thrown on a missing token.  `userData` is the
record the handler closed over. -/
def uploadCatch (s : State) (userData : Option Profile) (error : Option AxiosError) : State :=
  let s := if falsy s.token then
      { s with snackbar := ⟨true, "Please log in again to update your profile picture", "error"⟩ }
    else
      { s with snackbar :=
          ⟨true, orElse (error.bind (fun e => e.error)) "Failed to update profile picture", "error"⟩ }
  { s with previewUrl := cachedPictureUrl userData }

/-- The `handleProfilePictureChange` handler (lines 124-189).  `file` is
`e.target.files[0]`, `objectUrl` what `URL.createObjectURL` returns for it and `resp`
the outcome of the POST. -/
def handleProfilePictureChange (s : State) (file : Option File) (objectUrl : String)
    (resp : Response Unit) : State :=
  match file with
  | none => s
  | some f =>
    let userData := s.userData
    let s := { s with profilePicture := some f }
    let s := { s with previewUrl := .str objectUrl }
    let s := { s with loading := true }
    let s :=
      if falsy s.token then uploadCatch s userData none
      else
        let s := s.perform (.post "http://localhost:5001/upload" f (bearer s.token))
        match resp with
        | .ok _ =>
          { s with snackbar := ⟨true, "Profile picture updated successfully!", "success"⟩ }
        | .rejected error => uploadCatch s userData (some error)
    { s with loading := false }

/-- The `updateData` object `handleFieldUpdate` builds (lines 195-204); `none` when
the `split` call throws because the value is not a string. -/
def updateData (fieldName : String) (currentValue : JsVal) : Option (Obj JsVal) :=
  if fieldName = "interests" ∨ fieldName = "favouriteArtist" then
    match currentValue with
    | .str v => some (Obj.assign [] fieldName (.arr ((split v ',').map trim)))
    | _ => none
  else
    some (Obj.assign [] fieldName currentValue)

/-- The `catch` block of `handleFieldUpdate` (lines 218-223). -/
def fieldUpdateCatch (s : State) (fieldName : String) : State :=
  { s with snackbar := ⟨true, "Failed to update " ++ fieldName, "error"⟩ }

/-- The `try` block of `handleFieldUpdate` (lines 193-217): the state its statements
leave behind and whether it completed or threw.  `split` throws on a value that is not
a string, a rejected PATCH throws the axios error, and after a successful PATCH and the
success notification line 217 evaluates `setEditState`, which no declaration binds. -/
def fieldUpdateTry (s : State) (fieldName : String) (resp : Response Unit) :
    State × Except JsError Unit :=
  let s := { s with loading := true }
  let currentValue := watch s.form fieldName
  match updateData fieldName currentValue with
  | none => (s, .error .typeError)
  | some body =>
    let s := s.perform (.patch "http://localhost:5001/profile" body (bearer s.token))
    match resp with
    | .rejected error => (s, .error (.axios error))
    | .ok _ =>
      let s := { s with snackbar := ⟨true, fieldName ++ " updated successfully!", "success"⟩ }
      (s, identifier "setEditState" ())

/-- The `handleFieldUpdate` handler (lines 191-227); `resp` is the outcome of the PATCH. -/
def handleFieldUpdate (s : State) (fieldName : String) (resp : Response Unit) : State :=
  let r := fieldUpdateTry s fieldName resp
  let s :=
    match r.2 with
    | .ok _ => r.1
    | .error _ => fieldUpdateCatch r.1 fieldName
  { s with loading := false }

/-- The constants `renderField` computes before it builds its element (lines 230-232). -/
structure FieldView where
  isEditing : Bool
  currentValue : JsVal
  originalValue : JsVal
  deriving DecidableEq, Repr

/-- The `renderField` function up to its `return` (lines 229-233).  Its first statement
reads `editState[fieldName]`; `originalValue` is `userData?.[fieldName]`. -/
def renderField (s : State) (fieldName : String) : Except JsError FieldView := do
  let editState : Obj Bool ← identifier "editState" []
  let isEditing := match editState.get? fieldName with
    | some b => b
    | none => false
  let currentValue := watch s.form fieldName
  let originalValue := match s.userData with
    | some r => r.prop fieldName
    | none => .undefined
  pure { isEditing := isEditing, currentValue := currentValue, originalValue := originalValue }

/-- The `onSubmit` handler (lines 284-317); `resp` is the outcome of the PATCH, whose
body on success is an object holding the record under `user`. -/
def onSubmit (resp : Response Profile) (data : FormValues) (s : State) : State :=
  let s := { s with loading := true }
  let s :=
    if falsy s.token then
      { s with snackbar := ⟨true, "Failed to update profile", "error"⟩ }
    else
      let s := s.perform (.patch "http://localhost:5001/profile" data (bearer s.token))
      match resp with
      | .ok user =>
        let s := { s with userData := some user }
        let s := { s with snackbar := ⟨true, "Profile updated successfully!", "success"⟩ }
        { s with openModal := false }
      | .rejected error =>
        { s with snackbar := ⟨true, orElse error.error "Failed to update profile", "error"⟩ }
  { s with loading := false }

/-- The `handleSubmit(onValid)` of react-hook-form with the yup resolver of line 66:
the form is validated against `schema`; `onValid` runs on the values only when no
field has an error, otherwise the errors are stored and nothing else happens. -/
def handleSubmit (onValid : FormValues → State → State) (s : State) : State :=
  let errors := validate schema s.form
  if errors = [] then onValid s.form { s with errors := [] }
  else { s with errors := errors }

/-! ## Concrete inputs -/

/-- A profile record as the backend returns it. -/
def sampleProfile : Profile :=
  { username := .val "ana", about_me := .val "I love live music",
    interests := .val ["rock", "jazz"], favourite_artist := .val ["Queen"],
    gender := .val "other",
    profile_picture_url := .val "http://localhost:5001/uploads/ana.png" }

/-- The view after a successful mount with the token `tok` and `sampleProfile`. -/
def sampleState : State := useEffect (State.initial (some "tok")) (.ok sampleProfile)

/-- An image picked in the file input. -/
def sampleFile : File := { name := "me.png", mime := "image/png", size := 2048 }

/-- A rejection by the server with a message of its own. -/
def sampleError : AxiosError := { status := some 500, error := some "Upload failed" }

/-- The mounted view with the about-me text replaced by the draft `short`. -/
def editingState : State :=
  { sampleState with form := setValue sampleState.form "aboutMe" (.str "short") }

/-! ## The mount step -/

/-- Reading a field the store was just given. -/
theorem watch_setValue_same (f : FormValues) (name : String) (v : JsVal) :
    watch (setValue f name v) name = v := by
  simp [watch, setValue, Obj.assign, Obj.get?, List.lookup]

/-- Reading another field than the one the store was just given. -/
theorem watch_setValue_other (f : FormValues) (name other : String) (v : JsVal)
    (h : other ≠ name) : watch (setValue f name v) other = watch f other := by
  have hb : (other == name) = false := by simpa using h
  have hl : ∀ l : List (String × JsVal),
      List.lookup other (l.filter (fun p => p.1 != name)) = List.lookup other l := by
    intro l
    induction l with
    | nil => rfl
    | cons p l ih =>
      obtain ⟨k, w⟩ := p
      by_cases hk : k = name
      · subst hk
        simp [List.filter, List.lookup, hb, ih]
      · have hk2 : (k != name) = true := by simpa using hk
        simp only [List.filter, hk2, List.lookup, ih]
  simp [watch, setValue, Obj.assign, Obj.get?, List.lookup, hb, hl]

/-- C1: when `localStorage` holds no usable token, the mount effect sends no request
(the only effect is the navigation to the login view), opens the warning notification
"Please log in to view your profile", and leaves `userData`, `previewUrl` and the form
values as they were. -/
theorem useEffect_without_token (s : State) (resp : Response Profile)
    (h : falsy s.token = true) :
    (useEffect s resp).effects = s.effects ++ [Effect.navigate "/login"] ∧
    (useEffect s resp).snackbar = ⟨true, "Please log in to view your profile", "warning"⟩ ∧
    (useEffect s resp).userData = s.userData ∧
    (useEffect s resp).previewUrl = s.previewUrl ∧
    (useEffect s resp).form = s.form := by
  simp [useEffect, h, State.perform]

/-- C2: with a stored token, a profile fetch rejected with status 401 removes the token
from `localStorage` and navigates to the login view, whatever the state was before. -/
theorem useEffect_unauthorized (s : State) (error : AxiosError)
    (htoken : falsy s.token = false) (h401 : error.status = some 401) :
    (useEffect s (.rejected error)).token = none ∧
    (useEffect s (.rejected error)).effects =
      s.effects ++ [Effect.get "http://localhost:5001/profile" (bearer s.token),
                    Effect.navigate "/login"] := by
  simp [useEffect, fetchUserData, htoken, h401, State.perform]

/-- C3: with a stored token and a successful fetch of the record `data`, the four form
fields are seeded from it (the two list fields joined with ", "), `userData` is the
record and `previewUrl` its `profile_picture_url`. -/
theorem useEffect_seeds_form (s : State) (data : Profile) (htoken : falsy s.token = false) :
    watch (useEffect s (.ok data)).form "aboutMe" = ofStr data.about_me ∧
    watch (useEffect s (.ok data)).form "gender" = ofStr data.gender ∧
    watch (useEffect s (.ok data)).form "interests" = joinOpt ", " data.interests ∧
    watch (useEffect s (.ok data)).form "favouriteArtist" = joinOpt ", " data.favourite_artist ∧
    (∀ xs, data.interests = .val xs →
      watch (useEffect s (.ok data)).form "interests" = .str (join ", " xs)) ∧
    (∀ xs, data.favourite_artist = .val xs →
      watch (useEffect s (.ok data)).form "favouriteArtist" = .str (join ", " xs)) ∧
    (useEffect s (.ok data)).userData = some data ∧
    (useEffect s (.ok data)).previewUrl = ofStr data.profile_picture_url := by
  have hform : (useEffect s (.ok data)).form =
      setValue (setValue (setValue (setValue s.form "aboutMe" (ofStr data.about_me))
        "interests" (joinOpt ", " data.interests))
        "favouriteArtist" (joinOpt ", " data.favourite_artist)) "gender" (ofStr data.gender) := by
    simp [useEffect, fetchUserData, htoken, State.perform]
  have h1 : watch (useEffect s (.ok data)).form "aboutMe" = ofStr data.about_me := by
    rw [hform, watch_setValue_other _ _ _ _ (by decide),
      watch_setValue_other _ _ _ _ (by decide), watch_setValue_other _ _ _ _ (by decide),
      watch_setValue_same]
  have h2 : watch (useEffect s (.ok data)).form "gender" = ofStr data.gender := by
    rw [hform, watch_setValue_same]
  have h3 : watch (useEffect s (.ok data)).form "interests" = joinOpt ", " data.interests := by
    rw [hform, watch_setValue_other _ _ _ _ (by decide),
      watch_setValue_other _ _ _ _ (by decide), watch_setValue_same]
  have h4 : watch (useEffect s (.ok data)).form "favouriteArtist" =
      joinOpt ", " data.favourite_artist := by
    rw [hform, watch_setValue_other _ _ _ _ (by decide), watch_setValue_same]
  refine ⟨h1, h2, h3, h4, ?_, ?_, ?_, ?_⟩
  · intro xs hxs
    rw [h3, hxs]
    rfl
  · intro xs hxs
    rw [h4, hxs]
    rfl
  · simp [useEffect, fetchUserData, htoken, State.perform]
  · simp [useEffect, fetchUserData, htoken, State.perform]

/-- Witness of C1 on a freshly mounted view without a token. -/
theorem useEffect_without_token_witness :
    falsy (State.initial none).token = true ∧
    (useEffect (State.initial none) (.ok sampleProfile)).effects = [Effect.navigate "/login"] ∧
    (useEffect (State.initial none) (.ok sampleProfile)).userData = none :=
  ⟨by decide,
   (useEffect_without_token (State.initial none) (.ok sampleProfile) (by decide)).1,
   (useEffect_without_token (State.initial none) (.ok sampleProfile) (by decide)).2.2.1⟩

/-- Witness of C2 on a mounted view whose token the server rejects. -/
theorem useEffect_unauthorized_witness :
    falsy sampleState.token = false ∧
    (useEffect sampleState (.rejected ⟨some 401, none⟩)).token = none :=
  ⟨by decide, (useEffect_unauthorized sampleState ⟨some 401, none⟩ (by decide) rfl).1⟩

/-- Witness of C3 on a fresh view with the token `tok`. -/
theorem useEffect_seeds_form_witness :
    falsy (State.initial (some "tok")).token = false ∧
    watch (useEffect (State.initial (some "tok")) (.ok sampleProfile)).form "interests" =
      .str "rock, jazz" :=
  ⟨by decide,
   (useEffect_seeds_form (State.initial (some "tok")) sampleProfile (by decide)).2.2.2.2.1
     ["rock", "jazz"] rfl⟩

/-! ## The bulk edit modal -/

/-- C5: with a stored token, a PATCH that succeeds with the record `user` makes
`userData` exactly that record (nothing of the previous record or of the submitted
data is kept), closes the modal, opens a success notification and clears `loading`;
the one request sent carries the submitted data. -/
theorem onSubmit_success (s : State) (data : FormValues) (user : Profile)
    (htoken : falsy s.token = false) :
    (onSubmit (.ok user) data s).userData = some user ∧
    (onSubmit (.ok user) data s).openModal = false ∧
    (onSubmit (.ok user) data s).snackbar = ⟨true, "Profile updated successfully!", "success"⟩ ∧
    (onSubmit (.ok user) data s).loading = false ∧
    (onSubmit (.ok user) data s).effects =
      s.effects ++ [Effect.patch "http://localhost:5001/profile" data (bearer s.token)] := by
  simp [onSubmit, htoken, State.perform]

/-- Witness of C5: the server answers with a record unlike the cached one. -/
theorem onSubmit_success_witness :
    falsy sampleState.token = false ∧
    (onSubmit (.ok { sampleProfile with about_me := .val "Now into synthwave" })
      sampleState.form sampleState).userData =
      some { sampleProfile with about_me := .val "Now into synthwave" } :=
  ⟨by decide, (onSubmit_success sampleState sampleState.form _ (by decide)).1⟩

/-- A string has `.length` zero exactly when it is the empty string. -/
theorem jsLength_pos_iff (v : String) : 0 < jsLength v ↔ v ≠ "" := by
  obtain ⟨l⟩ := v
  cases l with
  | nil => simp [jsLength]
  | cons c cs =>
    have hc : 0 < utf16Units c := by
      unfold utf16Units
      split <;> decide
    have hne : (String.mk (c :: cs)) ≠ "" := by
      intro h
      have := congrArg String.data h
      simp at this
    simp only [jsLength, List.map_cons, List.sum_cons, ne_eq, hne, not_false_eq_true, iff_true]
    omega

/-- On a string of the Basic Multilingual Plane `.length` counts the code points. -/
theorem jsLength_eq_length (v : String) (h : ∀ c ∈ v.data, c.toNat < 0x10000) :
    jsLength v = v.length := by
  obtain ⟨l⟩ := v
  simp only [jsLength, String.length]
  induction l with
  | nil => rfl
  | cons c cs ih =>
    have hc : utf16Units c = 1 := by
      simp [utf16Units, h c (by simp)]
    have ih2 := ih (fun d hd => h d (by simp at hd ⊢; exact Or.inr hd))
    simp only [List.map_cons, List.sum_cons, List.length_cons, hc]
    simp only at ih2
    omega

/-- What the `aboutMe` schema accepts: a string, not empty, of `.length` 10 to 500. -/
theorem validateString_aboutMe (x : JsVal) :
    validateString [.required "About me is required",
        .min 10 "About me must be at least 10 characters",
        .max 500 "About me cannot exceed 500 characters"] x = [] ↔
      ∃ v, x = .str v ∧ v ≠ "" ∧ 10 ≤ jsLength v ∧ jsLength v ≤ 500 := by
  cases x with
  | undefined => simp [validateString, YupTest.passes, List.filter]
  | null => simp [validateString, YupTest.passes, List.filter]
  | arr xs => simp [validateString]
  | str v =>
    have hpos := jsLength_pos_iff v
    by_cases h0 : 0 < jsLength v <;> by_cases h1 : 10 ≤ jsLength v <;>
      by_cases h2 : jsLength v ≤ 500 <;>
      simp [validateString, YupTest.passes, List.filter, h0, h1, h2, ← hpos]

/-- The errors reported on `aboutMe` are those of its own string schema on its value. -/
theorem fieldErrors_aboutMe (f : FormValues) :
    fieldErrors schema f "aboutMe" =
      validateString [.required "About me is required",
        .min 10 "About me must be at least 10 characters",
        .max 500 "About me cannot exceed 500 characters"] (watch f "aboutMe") := by
  have hk1 : ("aboutMe" == "interests") = false := by decide
  have hk2 : ("aboutMe" == "favouriteArtist") = false := by decide
  have hk3 : ("aboutMe" == "gender") = false := by decide
  have hlook : ∀ l : List (String × List ValidationError),
      (∀ p ∈ l, ("aboutMe" == p.1) = false) → List.lookup "aboutMe" l = none := by
    intro l hl
    induction l with
    | nil => rfl
    | cons p l ih =>
      obtain ⟨k, es⟩ := p
      have hk : ("aboutMe" == k) = false := hl (k, es) (by simp)
      simp only [List.lookup, hk]
      exact ih (fun q hq => hl q (List.mem_cons_of_mem _ hq))
  have hrest : List.lookup "aboutMe" (List.filter (fun p => p.2 != [])
      [("interests", validateString [.required "Interests are required"] (watch f "interests")),
       ("favouriteArtist",
         validateString [.required "Favourite artist is required"] (watch f "favouriteArtist")),
       ("gender", validateString [.required "Gender is required"] (watch f "gender"))]) = none := by
    apply hlook
    intro p hp
    have hp2 := List.mem_of_mem_filter hp
    simp only [List.mem_cons, List.mem_singleton, List.not_mem_nil, or_false] at hp2
    rcases hp2 with rfl | rfl | rfl
    · exact hk1
    · exact hk2
    · exact hk3
  by_cases he : validateString [.required "About me is required",
        .min 10 "About me must be at least 10 characters",
        .max 500 "About me cannot exceed 500 characters"] (watch f "aboutMe") = []
  · simp only [fieldErrors, validate, schema, List.map_cons, List.map_nil]
    rw [List.filter_cons_of_neg (by simp [he]), hrest, he]
  · simp only [fieldErrors, validate, schema, List.map_cons, List.map_nil]
    rw [List.filter_cons_of_pos (by simpa using he)]
    simp [List.lookup]

/-- C4: when the `aboutMe` value of the form is a string of `.length` below 10, whatever
the other fields hold, validation reports an error on `aboutMe`, and the submit
`handleSubmit(onValid)` only stores the errors: the callback is never run (the result
is the same for every callback) and no request is sent.  Conversely the schema reports
no error on `aboutMe` exactly when its value is a non-empty string of `.length` between
10 and 500. -/
theorem handleSubmit_short_aboutMe (s : State) (v : String)
    (onValid : FormValues → State → State)
    (hvalue : watch s.form "aboutMe" = .str v) (hshort : jsLength v < 10) :
    fieldErrors schema s.form "aboutMe" ≠ [] ∧
    handleSubmit onValid s = { s with errors := validate schema s.form } ∧
    (handleSubmit onValid s).effects = s.effects ∧
    (∀ f : FormValues, fieldErrors schema f "aboutMe" = [] ↔
      ∃ w, watch f "aboutMe" = .str w ∧ w ≠ "" ∧ 10 ≤ jsLength w ∧ jsLength w ≤ 500) := by
  have herr : fieldErrors schema s.form "aboutMe" ≠ [] := by
    rw [fieldErrors_aboutMe, ne_eq, validateString_aboutMe]
    rintro ⟨w, hw, -, h10, -⟩
    rw [hvalue] at hw
    cases hw
    omega
  have hval : validate schema s.form ≠ [] := by
    intro h
    apply herr
    simp [fieldErrors, h]
  have hsub : handleSubmit onValid s = { s with errors := validate schema s.form } := by
    simp [handleSubmit, hval]
  refine ⟨herr, hsub, ?_, ?_⟩
  · rw [hsub]
  · intro f
    rw [fieldErrors_aboutMe, validateString_aboutMe]

/-- Witness of C4: the about-me text `too short` (9 code units) on the seeded form. -/
theorem handleSubmit_short_aboutMe_witness :
    watch (setValue sampleState.form "aboutMe" (.str "too short")) "aboutMe" = .str "too short" ∧
    jsLength "too short" < 10 ∧
    (handleSubmit (onSubmit (.ok sampleProfile))
      { sampleState with form := setValue sampleState.form "aboutMe" (.str "too short") }).effects =
      sampleState.effects :=
  ⟨by decide, by decide,
   (handleSubmit_short_aboutMe
     { sampleState with form := setValue sampleState.form "aboutMe" (.str "too short") }
     "too short" (onSubmit (.ok sampleProfile)) (by decide) (by decide)).2.2.1⟩

/-! ## The picture uploader -/

/-- C6: when the upload of a selected file fails, because the POST is rejected or
because no token is stored (then no POST is sent at all), the preview is what
`userData?.profile_picture_url` was when the handler started, `userData` is unchanged,
an error notification is open and `loading` is false. -/
theorem handleProfilePictureChange_failure (s : State) (file : File) (objectUrl : String)
    (resp : Response Unit)
    (hfail : falsy s.token = true ∨ ∃ error, resp = .rejected error) :
    (handleProfilePictureChange s (some file) objectUrl resp).previewUrl =
      cachedPictureUrl s.userData ∧
    (handleProfilePictureChange s (some file) objectUrl resp).userData = s.userData ∧
    (handleProfilePictureChange s (some file) objectUrl resp).snackbar.opened = true ∧
    (handleProfilePictureChange s (some file) objectUrl resp).snackbar.severity = "error" ∧
    (handleProfilePictureChange s (some file) objectUrl resp).loading = false ∧
    (falsy s.token = true →
      (handleProfilePictureChange s (some file) objectUrl resp).effects = s.effects) := by
  by_cases htoken : falsy s.token = true
  · simp [handleProfilePictureChange, uploadCatch, htoken]
  · have htoken2 : falsy s.token = false := by simpa using htoken
    rcases hfail with h | ⟨error, rfl⟩
    · exact absurd h htoken
    · simp [handleProfilePictureChange, uploadCatch, htoken2, State.perform]

/-- Witness of C6: the server rejects the upload of `sampleFile`. -/
theorem handleProfilePictureChange_failure_witness :
    (falsy sampleState.token = true ∨
      ∃ error, (Response.rejected sampleError : Response Unit) = .rejected error) ∧
    (handleProfilePictureChange sampleState (some sampleFile) "blob:1"
      (.rejected sampleError)).previewUrl = .str "http://localhost:5001/uploads/ana.png" :=
  ⟨Or.inr ⟨sampleError, rfl⟩,
   (handleProfilePictureChange_failure sampleState sampleFile "blob:1" (.rejected sampleError)
     (Or.inr ⟨sampleError, rfl⟩)).1⟩

/-! ## Splitting, trimming and joining -/

/-- There are as many pieces after the first as there are separators. -/
theorem splitPieces_length (sep : Char) (l : List Char) :
    (splitPieces sep l).2.length = l.count sep := by
  induction l with
  | nil => rfl
  | cons c cs ih =>
    by_cases h : c = sep
    · subst h
      simp [splitPieces, ih]
    · have h2 : (c == sep) = false := by simpa using h
      simp [splitPieces, h, ih, List.count_cons, h2]

/-- No piece holds the separator. -/
theorem splitPieces_no_sep (sep : Char) (l : List Char) :
    sep ∉ (splitPieces sep l).1 ∧ ∀ p ∈ (splitPieces sep l).2, sep ∉ p := by
  induction l with
  | nil => simp [splitPieces]
  | cons c cs ih =>
    by_cases h : c = sep
    · subst h
      simp only [splitPieces, if_true, List.not_mem_nil, not_false_eq_true, List.mem_cons,
        true_and]
      rintro p (rfl | hp)
      · exact ih.1
      · exact ih.2 p hp
    · simp only [splitPieces, h, if_false, List.mem_cons, not_or]
      exact ⟨⟨fun e => h e.symm, ih.1⟩, ih.2⟩

/-- The pieces, each later one behind a separator, make up the text that was split. -/
theorem splitPieces_concat (sep : Char) (l : List Char) :
    (splitPieces sep l).1 ++ ((splitPieces sep l).2.map (fun p => sep :: p)).flatten = l := by
  induction l with
  | nil => rfl
  | cons c cs ih =>
    by_cases h : c = sep
    · subst h
      simpa [splitPieces] using ih
    · simpa [splitPieces, h] using ih

/-- A text without separator is one piece. -/
theorem splitPieces_of_not_mem (sep : Char) (l : List Char) (h : sep ∉ l) :
    splitPieces sep l = (l, []) := by
  induction l with
  | nil => rfl
  | cons c cs ih =>
    have hc : c ≠ sep := fun e => h (by simp [e])
    have hcs : sep ∉ cs := fun e => h (List.mem_cons_of_mem _ e)
    simp [splitPieces, hc, ih hcs]

/-- Splitting a separator-free text followed by a separator and more text. -/
theorem splitPieces_append (sep : Char) (l rest : List Char) (h : sep ∉ l) :
    splitPieces sep (l ++ sep :: rest) =
      (l, (splitPieces sep rest).1 :: (splitPieces sep rest).2) := by
  induction l with
  | nil => simp [splitPieces]
  | cons c cs ih =>
    have hc : c ≠ sep := fun e => h (by simp [e])
    have hcs : sep ∉ cs := fun e => h (List.mem_cons_of_mem _ e)
    simp [splitPieces, hc, ih hcs]

/-- The result of `split` has one more element than the text has separators. -/
theorem split_length (v : String) (sep : Char) :
    (split v sep).length = v.data.count sep + 1 := by
  simp [split, splitPieces_length]

/-- A trimmed list of code points does not end with white space. -/
theorem trimChars_getLast (l : List Char) (c : Char) (h : (trimChars l).getLast? = some c) :
    isWhiteSpace c = false := by
  unfold trimChars at h
  rw [List.getLast?_reverse] at h
  have hne : (l.dropWhile isWhiteSpace).reverse.dropWhile isWhiteSpace ≠ [] := by
    intro e
    rw [e] at h
    simp at h
  have hh := List.head_dropWhile_not isWhiteSpace (l.dropWhile isWhiteSpace).reverse hne
  rw [List.head?_eq_head hne] at h
  cases h
  exact hh

/-- A trimmed list of code points does not begin with white space. -/
theorem trimChars_head (l : List Char) (c : Char) (h : (trimChars l).head? = some c) :
    isWhiteSpace c = false := by
  have hpre : trimChars l <+: l.dropWhile isWhiteSpace := by
    have := List.rdropWhile_prefix isWhiteSpace (l.dropWhile isWhiteSpace)
    simpa [trimChars, List.rdropWhile] using this
  obtain ⟨t, ht⟩ := hpre
  cases hl : trimChars l with
  | nil => rw [hl] at h; simp at h
  | cons d ds =>
    rw [hl] at h ht
    simp only [List.head?_cons, Option.some.injEq] at h
    subst h
    have hne : l.dropWhile isWhiteSpace ≠ [] := by
      rw [← ht]
      simp
    have hh := List.head_dropWhile_not isWhiteSpace l hne
    have hd : (l.dropWhile isWhiteSpace).head hne = d := by
      simp [← ht]
    rw [hd] at hh
    exact hh

/-- The result of `trim` neither begins nor ends with white space. -/
theorem trim_clean (s : String) :
    startsWithWhiteSpace (trim s) = false ∧ endsWithWhiteSpace (trim s) = false := by
  constructor
  · unfold startsWithWhiteSpace trim
    cases h : (trimChars s.data).head? with
    | none => simp [h]
    | some c => simpa [h] using trimChars_head s.data c h
  · unfold endsWithWhiteSpace trim
    cases h : (trimChars s.data).getLast? with
    | none => simp [h]
    | some c => simpa [h] using trimChars_getLast s.data c h

/-- The text is its trimmed part between two runs of white space. -/
theorem trimChars_spec (l : List Char) :
    ∃ before after : List Char, l = before ++ trimChars l ++ after ∧
      (∀ c ∈ before, isWhiteSpace c = true) ∧ (∀ c ∈ after, isWhiteSpace c = true) := by
  refine ⟨l.takeWhile isWhiteSpace,
    (((l.dropWhile isWhiteSpace).reverse.takeWhile isWhiteSpace)).reverse, ?_, ?_, ?_⟩
  · have h1 : l = l.takeWhile isWhiteSpace ++ l.dropWhile isWhiteSpace :=
      (List.takeWhile_append_dropWhile isWhiteSpace l).symm
    have h2 : (l.dropWhile isWhiteSpace).reverse =
        (l.dropWhile isWhiteSpace).reverse.takeWhile isWhiteSpace ++
          (l.dropWhile isWhiteSpace).reverse.dropWhile isWhiteSpace :=
      (List.takeWhile_append_dropWhile isWhiteSpace _).symm
    have h3 : l.dropWhile isWhiteSpace =
        ((l.dropWhile isWhiteSpace).reverse.dropWhile isWhiteSpace).reverse ++
          ((l.dropWhile isWhiteSpace).reverse.takeWhile isWhiteSpace).reverse := by
      rw [← List.reverse_append, ← h2, List.reverse_reverse]
    unfold trimChars
    rw [List.append_assoc, ← h3]
    exact h1
  · intro c hc
    exact List.mem_takeWhile_imp hc
  · intro c hc
    exact List.mem_takeWhile_imp (List.mem_reverse.mp hc)

/-- Trimming leaves alone a text that neither begins nor ends with white space. -/
theorem trimChars_of_clean (l : List Char)
    (hhead : ∀ c, l.head? = some c → isWhiteSpace c = false)
    (hlast : ∀ c, l.getLast? = some c → isWhiteSpace c = false) : trimChars l = l := by
  have h1 : l.dropWhile isWhiteSpace = l := by
    cases l with
    | nil => rfl
    | cons c cs =>
      have hc : ¬ (isWhiteSpace c = true) := by simp [hhead c rfl]
      exact List.dropWhile_cons_of_neg hc
  have h2 : l.reverse.dropWhile isWhiteSpace = l.reverse := by
    cases hr : l.reverse with
    | nil => rfl
    | cons c cs =>
      have hc : ¬ (isWhiteSpace c = true) := by
        have : l.getLast? = some c := by
          rw [← List.head?_reverse, hr]
          rfl
        simp [hlast c this]
      exact List.dropWhile_cons_of_neg hc
  unfold trimChars
  rw [h1, h2, List.reverse_reverse]

/-- Trimming removes the space that `join` puts behind each comma. -/
theorem trimChars_space_cons (l : List Char)
    (hhead : ∀ c, l.head? = some c → isWhiteSpace c = false)
    (hlast : ∀ c, l.getLast? = some c → isWhiteSpace c = false) :
    trimChars (' ' :: l) = l := by
  have h0 : (' ' :: l).dropWhile isWhiteSpace = l.dropWhile isWhiteSpace :=
    List.dropWhile_cons_of_pos (by decide)
  have h := trimChars_of_clean l hhead hlast
  unfold trimChars at h ⊢
  rw [h0, h]

/-- The pieces of a joined list: the first element, then each later element behind the
space of the separator. -/
theorem splitPieces_join (x : String) (rest : List String)
    (h : ∀ y ∈ x :: rest, ',' ∉ y.data) :
    splitPieces ',' (join ", " (x :: rest)).data =
      (x.data, rest.map (fun y => ' ' :: y.data)) := by
  induction rest generalizing x with
  | nil => exact splitPieces_of_not_mem ',' x.data (h x (by simp))
  | cons y rest ih =>
    have hx : ',' ∉ x.data := h x (by simp)
    have hrest : ∀ z ∈ y :: rest, ',' ∉ z.data := fun z hz => h z (List.mem_cons_of_mem _ hz)
    have hdata : (join ", " (x :: y :: rest)).data =
        x.data ++ ',' :: ' ' :: (join ", " (y :: rest)).data := by
      simp [join, String.data_append]
    have hsp : (' ' : Char) ≠ ',' := by decide
    rw [hdata, splitPieces_append ',' _ _ hx]
    simp [splitPieces, hsp, ih y hrest]

/-- Splitting and trimming the joined text of a clean non-empty list gives the list back. -/
theorem split_join_trim (xs : List String) (hne : xs ≠ [])
    (hclean : ∀ x ∈ xs, ',' ∉ x.data ∧ startsWithWhiteSpace x = false ∧
      endsWithWhiteSpace x = false) :
    (split (join ", " xs) ',').map trim = xs := by
  cases xs with
  | nil => exact absurd rfl hne
  | cons x rest =>
    have hhead : ∀ y ∈ x :: rest, ∀ c, y.data.head? = some c → isWhiteSpace c = false := by
      intro y hy c hc
      have := (hclean y hy).2.1
      simpa [startsWithWhiteSpace, hc] using this
    have hlast : ∀ y ∈ x :: rest, ∀ c, y.data.getLast? = some c → isWhiteSpace c = false := by
      intro y hy c hc
      have := (hclean y hy).2.2
      simpa [endsWithWhiteSpace, hc] using this
    have hsp := splitPieces_join x rest (fun y hy => (hclean y hy).1)
    simp only [split, hsp, List.map_cons, List.map_map]
    have hx : trim (String.mk x.data) = x := by
      simp only [trim]
      rw [trimChars_of_clean x.data (hhead x (by simp)) (hlast x (by simp))]
    rw [hx]
    congr 1
    have hmap : ∀ l : List String, (∀ y ∈ l, y ∈ x :: rest) →
        List.map (trim ∘ String.mk ∘ fun y => ' ' :: y.data) l = l := by
      intro l hl
      induction l with
      | nil => rfl
      | cons y l ih =>
        have hy : y ∈ x :: rest := hl y (by simp)
        have hty : trim (String.mk (' ' :: y.data)) = y := by
          simp only [trim]
          rw [trimChars_space_cons y.data (hhead y hy) (hlast y hy)]
        simp only [List.map_cons, Function.comp_apply, hty]
        rw [ih (fun z hz => hl z (List.mem_cons_of_mem _ hz))]
    exact hmap rest (fun y hy => List.mem_cons_of_mem _ hy)

/-! ## The field editor -/

/-- C9: when the current form value of `fieldName` is the string `v`, the one request
`handleFieldUpdate` sends is a PATCH whose body has the single key `fieldName`; for
`interests` and `favouriteArtist` its value is the list of the pieces of `v` between
commas, each trimmed, which has one more element than `v` has commas and no element
beginning or ending with white space; for every other field name its value is `v`. -/
theorem handleFieldUpdate_body (s : State) (fieldName v : String) (resp : Response Unit)
    (hvalue : watch s.form fieldName = .str v) :
    (handleFieldUpdate s fieldName resp).effects =
      s.effects ++ [Effect.patch "http://localhost:5001/profile"
        (if fieldName = "interests" ∨ fieldName = "favouriteArtist" then
          [(fieldName, JsVal.arr ((split v ',').map trim))]
         else [(fieldName, JsVal.str v)]) (bearer s.token)] ∧
    ((split v ',').map trim).length = v.data.count ',' + 1 ∧
    (∀ x ∈ (split v ',').map trim,
      startsWithWhiteSpace x = false ∧ endsWithWhiteSpace x = false) := by
  refine ⟨?_, ?_, ?_⟩
  · by_cases hf : fieldName = "interests" ∨ fieldName = "favouriteArtist"
    · cases resp <;>
        simp [handleFieldUpdate, fieldUpdateTry, updateData, hvalue, hf, State.perform,
          fieldUpdateCatch, Obj.assign, identifier, declared]
    · cases resp <;>
        simp [handleFieldUpdate, fieldUpdateTry, updateData, hvalue, hf, State.perform,
          fieldUpdateCatch, Obj.assign, identifier, declared]
  · rw [List.length_map, split_length]
  · intro x hx
    obtain ⟨p, -, rfl⟩ := List.mem_map.mp hx
    exact trim_clean p

/-- Witness of C9: the interests text ` rock ,jazz` is sent as the list `rock`, `jazz`. -/
theorem handleFieldUpdate_body_witness :
    watch (setValue sampleState.form "interests" (.str " rock ,jazz")) "interests" =
      .str " rock ,jazz" ∧
    (handleFieldUpdate { sampleState with
        form := setValue sampleState.form "interests" (.str " rock ,jazz") }
      "interests" (.ok ())).effects =
      sampleState.effects ++ [Effect.patch "http://localhost:5001/profile"
        [("interests", JsVal.arr ["rock", "jazz"])] "Bearer tok"] :=
  ⟨by decide,
   (handleFieldUpdate_body { sampleState with
        form := setValue sampleState.form "interests" (.str " rock ,jazz") }
      "interests" " rock ,jazz" (.ok ()) (by decide)).1⟩

/-- C10: for a non-empty list whose elements hold no comma and neither begin nor end
with white space, the text the form is seeded with (the list joined with ", ") is
sent back by `handleFieldUpdate` as that very list; for the empty list it is not: the
seeded text is empty and is sent as the list holding one empty string. -/
theorem updateData_round_trip (xs : List String) (hne : xs ≠ [])
    (hclean : ∀ x ∈ xs, ',' ∉ x.data ∧ startsWithWhiteSpace x = false ∧
      endsWithWhiteSpace x = false) :
    (split (join ", " xs) ',').map trim = xs ∧
    updateData "interests" (joinOpt ", " (.val xs)) = some [("interests", .arr xs)] ∧
    updateData "favouriteArtist" (joinOpt ", " (.val xs)) =
      some [("favouriteArtist", .arr xs)] ∧
    joinOpt ", " (.val []) = .str "" ∧
    updateData "interests" (joinOpt ", " (.val [])) = some [("interests", .arr [""])] ∧
    updateData "favouriteArtist" (joinOpt ", " (.val [])) =
      some [("favouriteArtist", .arr [""])] := by
  have h := split_join_trim xs hne hclean
  refine ⟨h, ?_, ?_, rfl, by decide, by decide⟩
  · simp [updateData, joinOpt, h, Obj.assign]
  · simp [updateData, joinOpt, h, Obj.assign]

/-- Witness of C10 on the interests of `sampleProfile`. -/
theorem updateData_round_trip_witness :
    (["rock", "jazz"] : List String) ≠ [] ∧
    updateData "interests" (joinOpt ", " (.val ["rock", "jazz"])) =
      some [("interests", .arr ["rock", "jazz"])] :=
  ⟨by decide, (updateData_round_trip ["rock", "jazz"] (by decide) (by decide)).2.1⟩

/-- C7, as stated, fails: with the draft `short` in the about-me field, which the schema
rejects, `handleFieldUpdate` still sends the PATCH (nothing is validated); after the
PATCH succeeds `userData` is the record it was, its `about_me` not the new value, and
the notification left on screen is not the success one.  On a fresh view, where the
interests value is undefined, no PATCH is sent at all. -/
theorem handleFieldUpdate_no_validation_no_cache :
    fieldErrors schema editingState.form "aboutMe" ≠ [] ∧
    (handleFieldUpdate editingState "aboutMe" (.ok ())).effects =
      editingState.effects ++ [Effect.patch "http://localhost:5001/profile"
        [("aboutMe", JsVal.str "short")] "Bearer tok"] ∧
    (handleFieldUpdate editingState "aboutMe" (.ok ())).userData = some sampleProfile ∧
    sampleProfile.about_me ≠ .val "short" ∧
    (handleFieldUpdate editingState "aboutMe" (.ok ())).snackbar.severity ≠ "success" ∧
    (handleFieldUpdate (State.initial (some "tok")) "interests" (.ok ())).effects = [] := by
  decide

/-- C7, amended: whenever the current form value of `fieldName` yields a payload (any
value for a field other than `interests` and `favouriteArtist`, a string for these
two), `handleFieldUpdate` sends, with no validation, exactly one PATCH whose body has
the single key `fieldName`; whatever the outcome of the PATCH, `userData` is left as
it was and `loading` ends false.  When the PATCH fails, the notification
"Failed to update" followed by the field name is shown with severity `error`, and
nothing else of the view changes. -/
theorem handleFieldUpdate_commit (s : State) (fieldName : String) (resp : Response Unit)
    (body : Obj JsVal)
    (hbody : updateData fieldName (watch s.form fieldName) = some body) :
    (∃ value, body = [(fieldName, value)]) ∧
    (handleFieldUpdate s fieldName resp).effects =
      s.effects ++ [Effect.patch "http://localhost:5001/profile" body (bearer s.token)] ∧
    (handleFieldUpdate s fieldName resp).userData = s.userData ∧
    (handleFieldUpdate s fieldName resp).loading = false ∧
    (∀ error, resp = .rejected error →
      handleFieldUpdate s fieldName resp =
        { s with
          snackbar := ⟨true, "Failed to update " ++ fieldName, "error"⟩,
          loading := false,
          effects := s.effects ++
            [Effect.patch "http://localhost:5001/profile" body (bearer s.token)] }) := by
  refine ⟨?_, ?_, ?_, ?_, ?_⟩
  · unfold updateData at hbody
    split at hbody
    · split at hbody
      · exact ⟨_, (Option.some.inj hbody).symm⟩
      · cases hbody
    · exact ⟨_, (Option.some.inj hbody).symm⟩
  · cases resp <;>
      simp [handleFieldUpdate, fieldUpdateTry, hbody, State.perform, fieldUpdateCatch,
        identifier, declared]
  · cases resp <;>
      simp [handleFieldUpdate, fieldUpdateTry, hbody, State.perform, fieldUpdateCatch,
        identifier, declared]
  · cases resp <;>
      simp [handleFieldUpdate, fieldUpdateTry, hbody, State.perform, fieldUpdateCatch,
        identifier, declared]
  · rintro error rfl
    simp [handleFieldUpdate, fieldUpdateTry, hbody, State.perform, fieldUpdateCatch]

/-- Witness of amended C7: the single-field update of about-me, accepted by the server,
sends its one PATCH and leaves the cached record alone. -/
theorem handleFieldUpdate_commit_witness :
    updateData "aboutMe" (watch editingState.form "aboutMe") =
      some [("aboutMe", JsVal.str "short")] ∧
    (handleFieldUpdate editingState "aboutMe" (.ok ())).effects =
      editingState.effects ++ [Effect.patch "http://localhost:5001/profile"
        [("aboutMe", JsVal.str "short")] "Bearer tok"] ∧
    (handleFieldUpdate editingState "aboutMe" (.ok ())).userData = some sampleProfile ∧
    (handleFieldUpdate editingState "aboutMe" (.rejected sampleError)).snackbar =
      ⟨true, "Failed to update aboutMe", "error"⟩ :=
  ⟨by decide,
   (handleFieldUpdate_commit editingState "aboutMe" (.ok ())
      [("aboutMe", JsVal.str "short")] (by decide)).2.1,
   (handleFieldUpdate_commit editingState "aboutMe" (.ok ())
      [("aboutMe", JsVal.str "short")] (by decide)).2.2.1,
   congrArg State.snackbar
     ((handleFieldUpdate_commit editingState "aboutMe" (.rejected sampleError)
        [("aboutMe", JsVal.str "short")] (by decide)).2.2.2.2 sampleError rfl)⟩

/-- C8, on the code: for each of the four editable fields `renderField` throws a
ReferenceError at its first statement, the read of the undeclared `editState`, so it
returns no element and no cancel action comes to exist. -/
theorem renderField_throws :
    renderField editingState "aboutMe" = .error (.referenceError "editState") ∧
    renderField editingState "interests" = .error (.referenceError "editState") ∧
    renderField editingState "favouriteArtist" = .error (.referenceError "editState") ∧
    renderField editingState "gender" = .error (.referenceError "editState") :=
  ⟨rfl, rfl, rfl, rfl⟩

end ProfilePage
